import Mathlib

/-!
Verification of the disk-I/O sampling pipeline of the glances fork.

Shallow embedding of:
  * `glances/plugins/nvme_metrics.py` — class `NVMeMetrics` (the Rate Engine):
    a per-process object holding `last_disk_stats` (dict device-id → psutil
    counters) and a single scalar `last_update_time`; `get_disk_io_metrics`
    computes read/write speeds from counter deltas.
  * `glances/plugins/nvme_detection.py` — `get_nvme_health_metrics`.
  * `glances/plugins/diskio/__init__.py` — `PluginModel.update_local`
    (the Sampler tick): merges NVMe and regular block-device records.

Python numbers: timestamps (`time.time()`) and speeds are modelled as `ℚ`
(exact arithmetic; the claims under study are structural, not about float
rounding); psutil counters are nonnegative integers, modelled as `ℕ`.
A Python `dict` is modelled as a lookup function `String → Option _`
(for the engine state) or as an insertion-ordered association list (for
the psutil `perdisk` result, since `dict` preserves insertion order and
`update_local` iterates it in that order).
-/

/-- One entry of `psutil.disk_io_counters(perdisk=True)`: the cumulative
counters the code reads (`read_count`, `write_count`, `read_bytes`,
`write_bytes`). -/
structure DiskIOCounters where
  read_count : ℕ
  write_count : ℕ
  read_bytes : ℕ
  write_bytes : ℕ
  deriving DecidableEq, Repr

/-- The mutable state of an `NVMeMetrics` instance
(`nvme_metrics.py`, `__init__`): `self.last_disk_stats = {}` and
`self.last_update_time = time.time()`. Note: the dict stores only the
counters of the last observation of each device; there is no per-device
timestamp, only the single shared `last_update_time`. -/
structure NVMeMetricsState where
  last_disk_stats : String → Option DiskIOCounters
  last_update_time : ℚ

/-- `NVMeMetrics.__init__` at wall-clock time `t`: empty dict,
`last_update_time = time.time()`. -/
def NVMeMetricsState.init (t : ℚ) : NVMeMetricsState :=
  { last_disk_stats := fun _ => none, last_update_time := t }

/-- The dict returned by a successful `get_disk_io_metrics` call:
`read_speed`/`write_speed` are computed rates; `read_count`/`write_count`
are copied verbatim from the current absolute counters. -/
structure IOMetricsResult where
  read_speed : ℚ
  write_speed : ℚ
  read_count : ℕ
  write_count : ℕ
  deriving DecidableEq, Repr

/-- `NVMeMetrics.get_disk_io_metrics(self, device_id)` from
`nvme_metrics.py` lines 9–40. Inputs made explicit: `diskio` is the
result of the call to `psutil.disk_io_counters(perdisk=True)` and
`current_time` the result of `time.time()`. Returns the metrics dict (or
`none` where Python returns `None`) together with the state after the call.

Control flow mirrored from the source:
  * `device_id not in diskio` → return `None`, state untouched;
  * prior entry present and `elapsed_time = 0` → the division
    `(...) / elapsed_time` raises `ZeroDivisionError`, which the
    surrounding `except Exception` catches and turns into `None`; the
    state-update lines after the division never run, so the state is
    returned unchanged;
  * otherwise speeds are the byte deltas divided by
    `current_time - self.last_update_time` (note: NOT a per-device
    timestamp; deltas are NOT clamped at zero), the dict entry for
    `device_id` is overwritten and `last_update_time` is set to
    `current_time`. -/
def get_disk_io_metrics (st : NVMeMetricsState)
    (diskio : String → Option DiskIOCounters) (current_time : ℚ)
    (device_id : String) : Option IOMetricsResult × NVMeMetricsState :=
  match diskio device_id with
  | none => (none, st)
  | some current_stats =>
    match st.last_disk_stats device_id with
    | some last_stats =>
      let elapsed_time := current_time - st.last_update_time
      if elapsed_time = 0 then
        (none, st)
      else
        let read_speed :=
          ((current_stats.read_bytes : ℚ) - (last_stats.read_bytes : ℚ)) / elapsed_time
        let write_speed :=
          ((current_stats.write_bytes : ℚ) - (last_stats.write_bytes : ℚ)) / elapsed_time
        (some { read_speed := read_speed, write_speed := write_speed,
                read_count := current_stats.read_count,
                write_count := current_stats.write_count },
         { last_disk_stats := fun k =>
             if k = device_id then some current_stats else st.last_disk_stats k,
           last_update_time := current_time })
    | none =>
      (some { read_speed := 0, write_speed := 0,
              read_count := current_stats.read_count,
              write_count := current_stats.write_count },
       { last_disk_stats := fun k =>
           if k = device_id then some current_stats else st.last_disk_stats k,
         last_update_time := current_time })

/-- One WMI `Win32_DiskDrive` row, reduced to the field
`get_nvme_health_metrics` reads. -/
structure WmiDisk where
  DeviceID : String
  deriving DecidableEq, Repr

/-- The dict returned by `get_nvme_health_metrics` on a match. -/
structure HealthMetrics where
  health_status : String
  temperature : Option ℚ
  deriving DecidableEq, Repr

/-- `get_nvme_health_metrics(device_id)` from `nvme_detection.py` lines
32–49: iterate the WMI disk list; on the first disk whose `DeviceID`
equals `device_id` return the placeholder dict
`{"health_status": "Healthy", "temperature": None}`; if the loop finishes
without a match the function falls through and implicitly returns `None`. -/
def get_nvme_health_metrics (disks : List WmiDisk) (device_id : String) :
    Option HealthMetrics :=
  match disks.find? (fun disk => disk.DeviceID == device_id) with
  | some _ => some { health_status := "Healthy", temperature := none }
  | none => none

/-- One catalog entry from `NVMeDetection.list_nvme_drives()`, reduced to
the fields `update_local` reads. -/
structure NVMeDrive where
  DeviceID : String
  Model : String
  deriving DecidableEq, Repr

/-- The slice of the argument object read by `update_local`. -/
structure DiskioArgs where
  diskio_show_ramfs : Bool
  deriving DecidableEq, Repr

/-- One stat dict appended by `update_local` (the per-device record of a
tick), with the keys the code writes. -/
structure Stat where
  disk_name : String
  read_speed : ℚ
  write_speed : ℚ
  read_count : ℕ
  write_count : ℕ
  read_bytes : ℕ
  write_bytes : ℕ
  health_status : String
  temperature : Option ℚ
  deriving DecidableEq, Repr

/-- Dict lookup over the insertion-ordered psutil result. -/
def lookupDisk (l : List (String × DiskIOCounters)) (d : String) :
    Option DiskIOCounters :=
  (l.find? (fun p => p.1 == d)).map Prod.snd

/-- The NVMe branch of `update_local` (diskio/`__init__.py` lines 165–185)
for one catalog drive. The source constructs a FRESH `NVMeMetrics()`
instance for this single call (line 167), so the engine state it queries is
`NVMeMetricsState.init current_time` — empty `last_disk_stats`. The inner
`psutil.disk_io_counters` call inside `get_disk_io_metrics` queries the
same OS source as the outer one, hence receives the same mapping. -/
def nvme_stat (diskio : String → Option DiskIOCounters)
    (wmi_disks : List WmiDisk) (current_time : ℚ) (drive : NVMeDrive) : Stat :=
  let io_metrics :=
    (get_disk_io_metrics (NVMeMetricsState.init current_time) diskio
      current_time drive.DeviceID).1
  let health_metrics := get_nvme_health_metrics wmi_disks drive.DeviceID
  { disk_name := drive.Model
    read_speed := match io_metrics with | some m => m.read_speed | none => 0
    write_speed := match io_metrics with | some m => m.write_speed | none => 0
    read_count := match io_metrics with | some m => m.read_count | none => 0
    write_count := match io_metrics with | some m => m.write_count | none => 0
    read_bytes := 0
    write_bytes := 0
    health_status := match health_metrics with | some h => h.health_status | none => "Unknown"
    temperature := match health_metrics with | some h => h.temperature | none => none }

/-- The regular-disk branch of `update_local` (lines 196–209): the psutil
counters pass through `filter_stats` (which keeps the counter fields named
in `fields_description`), then the NVMe-related fields are padded with
defaults. -/
def regular_stat (p : String × DiskIOCounters) : Stat :=
  { disk_name := p.1
    read_speed := 0
    write_speed := 0
    read_count := p.2.read_count
    write_count := p.2.write_count
    read_bytes := p.2.read_bytes
    write_bytes := p.2.write_bytes
    health_status := "N/A"
    temperature := none }

/-- Python's `s.startswith(p)`: the character sequence of `s` begins with
the character sequence of `p` (embedded via the character lists so that it
is kernel-computable). -/
def strStartsWith (s p : String) : Bool :=
  p.toList.isPrefixOf s.toList

/-- The two `continue` filters of the regular-disk loop (lines 189–194):
skip when `self.args is not None and not self.args.diskio_show_ramfs and
disk_name.startswith('ram')`, and skip when `not self.is_display(disk_name)`
(`is_display` lives in the parent `GlancesPluginModel`, outside this
repository's sources; it is passed in as the predicate it is). -/
def keepsDisk (args : Option DiskioArgs) (is_display : String → Bool)
    (p : String × DiskIOCounters) : Bool :=
  !((match args with
     | some a => !a.diskio_show_ramfs && strStartsWith p.1 "ram"
     | none => false)) && is_display p.1

/-- `PluginModel.update_local` (diskio/`__init__.py` lines 151–211), the
tick. `diskio_result` is `none` when `psutil.disk_io_counters` raises
(the `except Exception: return stats` path, `stats` still being the empty
init value); otherwise it is the insertion-ordered perdisk dict.
`nvme_drives` is what `NVMeDetection().list_nvme_drives()` returned and
`wmi_disks` the WMI disk list seen by `get_nvme_health_metrics`.
NVMe records are appended first, then the surviving regular disks in dict
order; no sorting happens here. -/
def update_local (args : Option DiskioArgs) (is_display : String → Bool)
    (diskio_result : Option (List (String × DiskIOCounters)))
    (nvme_drives : List NVMeDrive) (wmi_disks : List WmiDisk)
    (current_time : ℚ) : List Stat :=
  match diskio_result with
  | none => []
  | some diskio_list =>
    let diskio := lookupDisk diskio_list
    let nvme_stats := nvme_drives.map (nvme_stat diskio wmi_disks current_time)
    let regular_stats :=
      (diskio_list.filter (keepsDisk args is_display)).map regular_stat
    nvme_stats ++ regular_stats

/-! ## Concrete fixtures used by witnesses and counterexamples -/

/-- Engine state holding a prior snapshot for device `"nvme0"` (stored
counters: 10 reads, 5 writes, 1000 bytes read, 500 written), with
`last_update_time = 0`. -/
def stP2 : NVMeMetricsState :=
  { last_disk_stats := fun k =>
      if k = "nvme0" then some ⟨10, 5, 1000, 500⟩ else none
    last_update_time := 0 }

/-- psutil result two seconds later: `read_bytes` grew by 2048 (to 3048),
`write_bytes` by 2000 (to 2500), `read_count` to 30, `write_count` to 14. -/
def dioP2 : String → Option DiskIOCounters :=
  fun k => if k = "nvme0" then some ⟨30, 14, 3048, 2500⟩ else none

/-- Engine state with a prior snapshot for `"sdb"` whose `read_bytes` is
2000, with `last_update_time = 0`. -/
def stRegress : NVMeMetricsState :=
  { last_disk_stats := fun k =>
      if k = "sdb" then some ⟨50, 40, 2000, 900⟩ else none
    last_update_time := 0 }

/-- psutil result showing a counter regression on `"sdb"`:
`read_bytes` dropped from 2000 to 1000. -/
def dioRegress : String → Option DiskIOCounters :=
  fun k => if k = "sdb" then some ⟨60, 44, 1000, 950⟩ else none

/-! ## Rate Engine theorems -/

/-- C5: for a device observed for the first time (no prior entry in
`last_disk_stats`) that is present in the psutil mapping, the call stores
the new snapshot under the device id and the returned dict has zero
`read_speed` and `write_speed`, regardless of the absolute counter values
(the `read_count`/`write_count` fields are the absolute counters copied
through, as always). -/
theorem first_observation_zero_rates (st : NVMeMetricsState)
    (diskio : String → Option DiskIOCounters) (t : ℚ) (d : String)
    (c : DiskIOCounters) (h1 : st.last_disk_stats d = none)
    (h2 : diskio d = some c) :
    (get_disk_io_metrics st diskio t d).1 =
      some { read_speed := 0, write_speed := 0,
             read_count := c.read_count, write_count := c.write_count } ∧
    ((get_disk_io_metrics st diskio t d).2).last_disk_stats d = some c := by
  simp [get_disk_io_metrics, h1, h2]

/-- Witness for `first_observation_zero_rates` at a concrete input:
fresh engine, device `"nvme0"` with counters ⟨30, 14, 3048, 2500⟩. -/
theorem first_observation_zero_rates_witness :
    ((NVMeMetricsState.init 0).last_disk_stats "nvme0" = none) ∧
    (dioP2 "nvme0" = some ⟨30, 14, 3048, 2500⟩) ∧
    ((get_disk_io_metrics (NVMeMetricsState.init 0) dioP2 7 "nvme0").1 =
        some { read_speed := 0, write_speed := 0,
               read_count := 30, write_count := 14 } ∧
      ((get_disk_io_metrics (NVMeMetricsState.init 0) dioP2 7 "nvme0").2).last_disk_stats
          "nvme0" = some ⟨30, 14, 3048, 2500⟩) :=
  ⟨rfl, by decide,
   first_observation_zero_rates (NVMeMetricsState.init 0) dioP2 7 "nvme0"
     ⟨30, 14, 3048, 2500⟩ rfl (by decide)⟩

/-- C3 counterexample: with a prior entry for `"nvme0"` stored in a state
whose `last_update_time` is 0, an observation at `current_time = 0`
(identical timestamp, `elapsed_time = 0`) makes the division raise
`ZeroDivisionError`; the handler returns `None` and the state is left
unchanged — the call does NOT return an all-zero-rate dict. -/
theorem dt_zero_cex :
    get_disk_io_metrics stP2 dioP2 0 "nvme0" = (none, stP2) ∧
    (get_disk_io_metrics stP2 dioP2 0 "nvme0").1 ≠
      some { read_speed := 0, write_speed := 0,
             read_count := 30, write_count := 14 } := by
  have h : get_disk_io_metrics stP2 dioP2 0 "nvme0" = (none, stP2) := by
    simp [get_disk_io_metrics, stP2, dioP2]
  exact ⟨h, by rw [h]; simp⟩

/-- C3 amended: with a prior entry present, `elapsed_time = 0` makes the
division raise; the `except` handler converts it to a `None` return and the
state-update lines never run (state unchanged). For `elapsed_time ≠ 0`
(including NEGATIVE elapsed time — there is no `dt <= 0` guard) the code
divides by `elapsed_time` and returns the quotient of the byte deltas, so a
backwards clock yields sign-flipped (typically negative) rates rather than
zeros. In neither case does an exception escape to the caller. -/
theorem dt_nonpositive_behavior (st : NVMeMetricsState)
    (diskio : String → Option DiskIOCounters) (t : ℚ) (d : String)
    (prior c : DiskIOCounters) (h1 : st.last_disk_stats d = some prior)
    (h2 : diskio d = some c) :
    (t - st.last_update_time = 0 →
      get_disk_io_metrics st diskio t d = (none, st)) ∧
    (t - st.last_update_time ≠ 0 →
      (get_disk_io_metrics st diskio t d).1.map IOMetricsResult.read_speed =
        some (((c.read_bytes : ℚ) - (prior.read_bytes : ℚ)) /
          (t - st.last_update_time))) := by
  constructor
  · intro h0
    simp [get_disk_io_metrics, h1, h2, h0]
  · intro hne
    simp [get_disk_io_metrics, h1, h2, hne]

/-- Witness for `dt_nonpositive_behavior`: concrete prior for `"nvme0"`,
evaluated both at `t = 0` (zero elapsed → `None`, state unchanged) and at
`t = -1` (negative elapsed → rate `2048 / (-1) = -2048`). -/
theorem dt_nonpositive_behavior_witness :
    (stP2.last_disk_stats "nvme0" = some ⟨10, 5, 1000, 500⟩) ∧
    (dioP2 "nvme0" = some ⟨30, 14, 3048, 2500⟩) ∧
    (((0 : ℚ) - stP2.last_update_time = 0 →
        get_disk_io_metrics stP2 dioP2 0 "nvme0" = (none, stP2)) ∧
      ((0 : ℚ) - stP2.last_update_time ≠ 0 →
        (get_disk_io_metrics stP2 dioP2 0 "nvme0").1.map IOMetricsResult.read_speed =
          some ((((3048 : ℕ) : ℚ) - ((1000 : ℕ) : ℚ)) / (0 - stP2.last_update_time)))) ∧
    ((get_disk_io_metrics stP2 dioP2 (-1) "nvme0").1.map IOMetricsResult.read_speed =
      some (-2048)) :=
  ⟨by decide, by decide,
   dt_nonpositive_behavior stP2 dioP2 0 "nvme0" ⟨10, 5, 1000, 500⟩
     ⟨30, 14, 3048, 2500⟩ (by decide) (by decide),
   by
     have h2 := (dt_nonpositive_behavior stP2 dioP2 (-1) "nvme0" ⟨10, 5, 1000, 500⟩
       ⟨30, 14, 3048, 2500⟩ (by decide) (by decide)).2 (by norm_num [stP2])
     rw [h2]
     norm_num [stP2]⟩

/-- C4 counterexample: prior `read_bytes = 2000` for `"sdb"`, new
observation one second later with `read_bytes = 1000` (counter regression):
the delta is NOT clamped, and the reported `read_speed` is `-1000`,
a strictly negative rate. -/
theorem regression_not_clamped_cex :
    ((get_disk_io_metrics stRegress dioRegress 1 "sdb").1.map
        IOMetricsResult.read_speed = some (-1000)) ∧
    ¬ ((-1000 : ℚ) = 0) ∧ ((-1000 : ℚ) < 0) := by
  refine ⟨?_, by norm_num⟩
  simp [get_disk_io_metrics, stRegress, dioRegress]
  norm_num

/-- C4 amended: on a counter regression (`c.read_bytes < prior.read_bytes`)
with strictly positive elapsed time, the delta is not clamped: the call
returns a strictly NEGATIVE `read_speed` (the raw signed delta divided by
the elapsed time). -/
theorem regression_negative_rate (st : NVMeMetricsState)
    (diskio : String → Option DiskIOCounters) (t : ℚ) (d : String)
    (prior c : DiskIOCounters) (h1 : st.last_disk_stats d = some prior)
    (h2 : diskio d = some c) (h3 : 0 < t - st.last_update_time)
    (h4 : c.read_bytes < prior.read_bytes) :
    (get_disk_io_metrics st diskio t d).1.map IOMetricsResult.read_speed =
      some (((c.read_bytes : ℚ) - (prior.read_bytes : ℚ)) /
        (t - st.last_update_time)) ∧
    ((c.read_bytes : ℚ) - (prior.read_bytes : ℚ)) /
        (t - st.last_update_time) < 0 := by
  refine ⟨?_, ?_⟩
  · simp [get_disk_io_metrics, h1, h2, ne_of_gt h3]
  · apply div_neg_of_neg_of_pos _ h3
    have : (c.read_bytes : ℚ) < (prior.read_bytes : ℚ) := by
      exact_mod_cast h4
    linarith

/-- Witness for `regression_negative_rate` at the concrete regression
fixture (2000 → 1000 bytes in one second). -/
theorem regression_negative_rate_witness :
    (stRegress.last_disk_stats "sdb" = some ⟨50, 40, 2000, 900⟩) ∧
    (dioRegress "sdb" = some ⟨60, 44, 1000, 950⟩) ∧
    ((0 : ℚ) < 1 - stRegress.last_update_time) ∧
    ((1000 : ℕ) < 2000) ∧
    ((get_disk_io_metrics stRegress dioRegress 1 "sdb").1.map
        IOMetricsResult.read_speed =
      some ((((1000 : ℕ) : ℚ) - ((2000 : ℕ) : ℚ)) /
        (1 - stRegress.last_update_time)) ∧
      (((1000 : ℕ) : ℚ) - ((2000 : ℕ) : ℚ)) /
        (1 - stRegress.last_update_time) < 0) :=
  ⟨by decide, by decide, by norm_num [stRegress], by norm_num,
   regression_negative_rate stRegress dioRegress 1 "sdb" ⟨50, 40, 2000, 900⟩
     ⟨60, 44, 1000, 950⟩ (by decide) (by decide) (by norm_num [stRegress])
     (by norm_num)⟩

/-- C2 counterexample: engine with a prior entry for `"nvme0"` (prior
`read_count = 10`) observed 2 seconds later with `read_count = 30`. The
claim's "symmetrically for read_count" would require the returned count
field to be the rate `(30 - 10) / 2 = 10` operations per second; the code
returns the ABSOLUTE cumulative counter `30` instead. -/
theorem count_fields_not_rates_cex :
    ((get_disk_io_metrics stP2 dioP2 2 "nvme0").1.map
        IOMetricsResult.read_count = some 30) ∧
    ¬ ((30 : ℕ) = 10) := by
  refine ⟨?_, by norm_num⟩
  simp [get_disk_io_metrics, stP2, dioP2]

/-- C2 amended: for a device with a prior entry, when the engine-wide
elapsed time `t - last_update_time` (measured from the engine's most
recent successful observation of ANY device, not from this device's own
prior) is nonzero, `read_speed` and `write_speed` are the byte deltas
divided by that elapsed time, while `read_count` and `write_count` are the
current ABSOLUTE cumulative counters, not rates. -/
theorem rate_formula (st : NVMeMetricsState)
    (diskio : String → Option DiskIOCounters) (t : ℚ) (d : String)
    (prior c : DiskIOCounters) (h1 : st.last_disk_stats d = some prior)
    (h2 : diskio d = some c) (h3 : t - st.last_update_time ≠ 0) :
    (get_disk_io_metrics st diskio t d).1 =
      some { read_speed := ((c.read_bytes : ℚ) - (prior.read_bytes : ℚ)) /
               (t - st.last_update_time)
             write_speed := ((c.write_bytes : ℚ) - (prior.write_bytes : ℚ)) /
               (t - st.last_update_time)
             read_count := c.read_count
             write_count := c.write_count } := by
  simp [get_disk_io_metrics, h1, h2, h3]

/-- Witness for `rate_formula`, realizing the spec's P2 example: prior
`read_bytes = 1000` stored with `last_update_time = 0`, observation at
`t = 2` with `read_bytes = 3048` (delta 2048): `read_speed = 1024`
(and `write_speed = (2500 - 500) / 2 = 1000`). -/
theorem rate_formula_witness :
    (stP2.last_disk_stats "nvme0" = some ⟨10, 5, 1000, 500⟩) ∧
    (dioP2 "nvme0" = some ⟨30, 14, 3048, 2500⟩) ∧
    ((2 : ℚ) - stP2.last_update_time ≠ 0) ∧
    ((get_disk_io_metrics stP2 dioP2 2 "nvme0").1 =
      some { read_speed := (((3048 : ℕ) : ℚ) - ((1000 : ℕ) : ℚ)) /
               (2 - stP2.last_update_time)
             write_speed := (((2500 : ℕ) : ℚ) - ((500 : ℕ) : ℚ)) /
               (2 - stP2.last_update_time)
             read_count := 30
             write_count := 14 }) ∧
    ((((3048 : ℕ) : ℚ) - ((1000 : ℕ) : ℚ)) / (2 - stP2.last_update_time)
      = 1024) :=
  ⟨by decide, by decide, by norm_num [stP2],
   rate_formula stP2 dioP2 2 "nvme0" ⟨10, 5, 1000, 500⟩ ⟨30, 14, 3048, 2500⟩
     (by decide) (by decide) (by norm_num [stP2]),
   by norm_num [stP2]⟩

/-- psutil mapping at the first two observation times of the C6 scenario:
`"sda"` has 1000 bytes read, `"sdb"` 500. -/
def dioSeq1 : String → Option DiskIOCounters :=
  fun k => if k = "sda" then some ⟨1, 1, 1000, 100⟩
    else if k = "sdb" then some ⟨2, 2, 500, 50⟩ else none

/-- psutil mapping at the third observation time: `"sda"` grew to 1400
bytes read, `"sdb"` unchanged. -/
def dioSeq2 : String → Option DiskIOCounters :=
  fun k => if k = "sda" then some ⟨3, 3, 1400, 140⟩
    else if k = "sdb" then some ⟨2, 2, 500, 50⟩ else none

/-- Engine built at `t = 0`; first observation: `"sda"` at `t = 1`. -/
def stepA1 : Option IOMetricsResult × NVMeMetricsState :=
  get_disk_io_metrics (NVMeMetricsState.init 0) dioSeq1 1 "sda"

/-- Second observation on the same engine: `"sdb"` at `t = 2`. -/
def stepB : Option IOMetricsResult × NVMeMetricsState :=
  get_disk_io_metrics stepA1.2 dioSeq1 2 "sdb"

/-- Third observation on the same engine: `"sda"` again at `t = 3`. -/
def stepA2 : Option IOMetricsResult × NVMeMetricsState :=
  get_disk_io_metrics stepB.2 dioSeq2 3 "sda"

/-- C6 counterexample: `"sda"`'s prior snapshot was stored at `t = 1`, so a
per-device dt at `t = 3` would be 2 and the claimed rate
`(1400 - 1000) / (3 - 1) = 200`. But observing `"sdb"` at `t = 2` in
between overwrote the engine-wide `last_update_time`, so the code divides
by `3 - 2 = 1` and reports `400`. -/
theorem dt_not_per_device_cex :
    (stepA2.1.map IOMetricsResult.read_speed = some 400) ∧
    ¬ ((400 : ℚ) = (1400 - 1000) / (3 - 1)) := by
  refine ⟨?_, by norm_num⟩
  have hA1a : stepA1.2.last_disk_stats "sda" = some ⟨1, 1, 1000, 100⟩ := by
    simp [stepA1, get_disk_io_metrics, NVMeMetricsState.init, dioSeq1]
  have hA1b : stepA1.2.last_disk_stats "sdb" = none := by
    simp [stepA1, get_disk_io_metrics, NVMeMetricsState.init, dioSeq1]
  have hBa : stepB.2.last_disk_stats "sda" = some ⟨1, 1, 1000, 100⟩ := by
    simp [stepB, get_disk_io_metrics, dioSeq1, hA1b, hA1a]
  have hBt : stepB.2.last_update_time = 2 := by
    simp [stepB, get_disk_io_metrics, dioSeq1, hA1b]
  rw [show stepA2 = get_disk_io_metrics stepB.2 dioSeq2 3 "sda" from rfl]
  rw [get_disk_io_metrics]
  norm_num [dioSeq2, hBa, hBt]

/-- C6 amended: the elapsed time used for a device's rates is
`t - last_update_time` where `last_update_time` is a single engine-wide
field, overwritten by every successful observation of ANY device (first
conjunct); the rate of a device with a prior entry divides by that shared
elapsed time (second conjunct) — the state keeps no per-device timestamp,
so the divisor equals the time since the device's own prior observation
only when no other device was successfully observed in between. -/
theorem dt_uses_shared_last_update_time (st : NVMeMetricsState)
    (diskio : String → Option DiskIOCounters) (t : ℚ) (d : String)
    (c : DiskIOCounters) (h2 : diskio d = some c)
    (h3 : t - st.last_update_time ≠ 0) :
    ((get_disk_io_metrics st diskio t d).1 ≠ none →
      ((get_disk_io_metrics st diskio t d).2).last_update_time = t) ∧
    (∀ prior, st.last_disk_stats d = some prior →
      (get_disk_io_metrics st diskio t d).1.map IOMetricsResult.read_speed =
        some (((c.read_bytes : ℚ) - (prior.read_bytes : ℚ)) /
          (t - st.last_update_time))) := by
  constructor
  · intro hne
    cases hl : st.last_disk_stats d with
    | none => simp [get_disk_io_metrics, h2, hl]
    | some prior => simp [get_disk_io_metrics, h2, hl, h3]
  · intro prior hp
    simp [get_disk_io_metrics, h2, hp, h3]

/-- Witness for `dt_uses_shared_last_update_time` at the concrete P2
fixture. -/
theorem dt_uses_shared_last_update_time_witness :
    (dioP2 "nvme0" = some ⟨30, 14, 3048, 2500⟩) ∧
    ((2 : ℚ) - stP2.last_update_time ≠ 0) ∧
    (stP2.last_disk_stats "nvme0" = some ⟨10, 5, 1000, 500⟩) ∧
    ((get_disk_io_metrics stP2 dioP2 2 "nvme0").1.map
        IOMetricsResult.read_speed =
      some (((((⟨30, 14, 3048, 2500⟩ : DiskIOCounters)).read_bytes : ℚ) -
          (((⟨10, 5, 1000, 500⟩ : DiskIOCounters)).read_bytes : ℚ)) /
        (2 - stP2.last_update_time))) :=
  ⟨by decide, by norm_num [stP2], by decide,
   (dt_uses_shared_last_update_time stP2 dioP2 2 "nvme0" ⟨30, 14, 3048, 2500⟩
     (by decide) (by norm_num [stP2])).2 ⟨10, 5, 1000, 500⟩ (by decide)⟩

/-! ## Health telemetry theorems -/

/-- C10: `get_nvme_health_metrics` returns the constant placeholder
`{"health_status": "Healthy", "temperature": None}` exactly when some WMI
disk row matches the identifier, and `None` exactly when no row matches;
it never produces any other value (in particular never a measured
temperature) and never propagates an exception. -/
theorem get_nvme_health_metrics_spec (disks : List WmiDisk)
    (device_id : String) :
    (get_nvme_health_metrics disks device_id =
        some { health_status := "Healthy", temperature := none } ↔
      ∃ disk ∈ disks, disk.DeviceID = device_id) ∧
    (get_nvme_health_metrics disks device_id = none ↔
      ∀ disk ∈ disks, disk.DeviceID ≠ device_id) := by
  unfold get_nvme_health_metrics
  cases h : disks.find? (fun disk => disk.DeviceID == device_id) with
  | none =>
    rw [List.find?_eq_none] at h
    simp only [beq_iff_eq] at h
    constructor
    · simp only [reduceCtorEq, false_iff]
      rintro ⟨x, hx, hxd⟩
      exact h x hx hxd
    · simp only [true_iff]
      exact h
  | some disk =>
    have hmem := List.mem_of_find?_eq_some h
    have hp := List.find?_some h
    rw [beq_iff_eq] at hp
    constructor
    · simp only [true_iff]
      exact ⟨disk, hmem, hp⟩
    · simp only [reduceCtorEq, false_iff, not_forall]
      push_neg
      exact ⟨disk, hmem, hp⟩

/-! ## Sampler (tick) theorems -/

/-- Helper: the NVMe branch always queries a freshly constructed engine
whose `last_disk_stats` dict is empty, so its computed speeds are 0
whatever the counters are. -/
theorem nvme_stat_speeds_zero (diskio : String → Option DiskIOCounters)
    (wmi_disks : List WmiDisk) (t : ℚ) (drive : NVMeDrive) :
    (nvme_stat diskio wmi_disks t drive).read_speed = 0 ∧
    (nvme_stat diskio wmi_disks t drive).write_speed = 0 := by
  unfold nvme_stat
  cases h : diskio drive.DeviceID with
  | none => simp [get_disk_io_metrics, h]
  | some c => simp [get_disk_io_metrics, h, NVMeMetricsState.init]

/-- C1: because `update_local` constructs a fresh `NVMeMetrics()` instance
inside every call (diskio/`__init__.py` line 167), the Rate Engine's
backing dict is empty on every tick: no prior snapshot ever survives from
one tick to the next, and consequently EVERY record of EVERY tick — NVMe
records (first-observation branch of an empty engine) and regular records
(hard-coded defaults) alike — carries `read_speed = 0` and
`write_speed = 0`, contradicting the process-lifetime persistence the
design mandates (spec §9 flags exactly this re-instantiation as an
unintentional bug). -/
theorem tick_rates_always_zero (args : Option DiskioArgs)
    (is_display : String → Bool)
    (diskio_result : Option (List (String × DiskIOCounters)))
    (nvme_drives : List NVMeDrive) (wmi_disks : List WmiDisk) (t : ℚ)
    (s : Stat)
    (hs : s ∈ update_local args is_display diskio_result nvme_drives
      wmi_disks t) :
    s.read_speed = 0 ∧ s.write_speed = 0 := by
  cases diskio_result with
  | none => simp [update_local] at hs
  | some l =>
    simp only [update_local, List.mem_append, List.mem_map] at hs
    rcases hs with ⟨drive, _, rfl⟩ | ⟨p, _, rfl⟩
    · exact nvme_stat_speeds_zero _ _ _ _
    · exact ⟨rfl, rfl⟩

/-- Second tick of the C1 failing scenario: device `"id0"` is an NVMe
drive whose counters have grown to `read_bytes = 3048` since the previous
tick two seconds earlier (which saw `read_bytes = 1000`). -/
def tickW : List Stat :=
  update_local (some ⟨true⟩) (fun _ => true)
    (some [("id0", ⟨30, 14, 3048, 2500⟩)]) [⟨"id0", "X SSD"⟩] [⟨"id0"⟩] 2

/-- The NVMe record that second tick produces: zero speeds, because the
freshly constructed engine has no prior snapshot. -/
def statW : Stat :=
  { disk_name := "X SSD", read_speed := 0, write_speed := 0,
    read_count := 30, write_count := 14, read_bytes := 0, write_bytes := 0,
    health_status := "Healthy", temperature := none }

/-- Witness for `tick_rates_always_zero`: the concrete second tick of the
failing scenario contains the NVMe record `statW` and its speeds are 0
(where a persistent engine would have reported 2048 / 2 = 1024). -/
theorem tick_rates_always_zero_witness :
    statW ∈ tickW ∧ statW.read_speed = 0 ∧ statW.write_speed = 0 := by
  have hm : statW ∈ tickW := by
    simp [tickW, update_local, nvme_stat, get_disk_io_metrics,
      NVMeMetricsState.init, lookupDisk, get_nvme_health_metrics, statW]
  exact ⟨hm, tick_rates_always_zero _ _ _ _ _ _ statW hm⟩

/-- C7 counterexample: the counter source fails (`psutil` raises) while
the catalog reports one NVMe drive; the tick returns the EMPTY record set
— the specialized-device record is NOT produced, because the
`except Exception: return stats` path exits before the NVMe branch. -/
theorem counter_source_failure_cex :
    update_local (some ⟨true⟩) (fun _ => true) none
      [⟨"id0", "X SSD"⟩] [⟨"id0"⟩] 0 = [] :=
  rfl

/-- C7 amended: when the counter-source call fails, the tick still does
not fail fatally (the exception is caught), but it returns the empty
initial record set for the WHOLE tick: the failing collaborator's early
return also suppresses the specialized-device records, which are built
only after the counter snapshot succeeds. -/
theorem counter_source_failure_empty (args : Option DiskioArgs)
    (is_display : String → Bool) (drives : List NVMeDrive)
    (wmi : List WmiDisk) (t : ℚ) :
    update_local args is_display none drives wmi t = [] :=
  rfl

/-- C8: the RAM-pseudo-device filter of the regular-disk loop. For a
block device `d` present in the counter snapshot whose name starts with
`"ram"`, which the display-inclusion policy accepts and which no NVMe
catalog record shadows by name: with `diskio_show_ramfs = false` the
device appears in no record of the tick, and with
`diskio_show_ramfs = true` it appears. -/
theorem ram_filter (is_display : String → Bool)
    (l : List (String × DiskIOCounters)) (drives : List NVMeDrive)
    (wmi : List WmiDisk) (t : ℚ) (d : String) (c : DiskIOCounters)
    (h1 : strStartsWith d "ram" = true)
    (h2 : ∀ dr ∈ drives, dr.Model ≠ d)
    (h3 : (d, c) ∈ l) (h4 : is_display d = true) :
    (d ∉ (update_local (some ⟨false⟩) is_display (some l) drives wmi t).map
        Stat.disk_name) ∧
    (d ∈ (update_local (some ⟨true⟩) is_display (some l) drives wmi t).map
        Stat.disk_name) := by
  constructor
  · intro hmem
    simp only [update_local, List.map_append, List.mem_append, List.map_map,
      List.mem_map, Function.comp_apply, List.mem_filter] at hmem
    rcases hmem with ⟨dr, hdr, hname⟩ | ⟨p, ⟨_, hpk⟩, hname⟩
    · exact h2 dr hdr (by simpa [nvme_stat] using hname)
    · have hp1 : p.1 = d := hname
      simp [keepsDisk, hp1, h1] at hpk
  · simp only [update_local, List.map_append, List.mem_append, List.map_map,
      List.mem_map, Function.comp_apply, List.mem_filter]
    right
    exact ⟨(d, c), ⟨h3, by simp [keepsDisk, h4]⟩, rfl⟩

/-- Witness for `ram_filter`: `"ram0"` with counters present, accepted by
the display policy, one NVMe drive named `"X SSD"` in the catalog. -/
theorem ram_filter_witness :
    (strStartsWith "ram0" "ram" = true) ∧
    (∀ dr ∈ ([⟨"idX", "X SSD"⟩] : List NVMeDrive), dr.Model ≠ "ram0") ∧
    (("ram0", (⟨1, 1, 1, 1⟩ : DiskIOCounters)) ∈
      [("ram0", (⟨1, 1, 1, 1⟩ : DiskIOCounters)),
       ("sda", (⟨2, 2, 2, 2⟩ : DiskIOCounters))]) ∧
    ((fun _ => true) "ram0" = true) ∧
    (("ram0" ∉ (update_local (some ⟨false⟩) (fun _ => true)
        (some [("ram0", ⟨1, 1, 1, 1⟩), ("sda", ⟨2, 2, 2, 2⟩)])
        [⟨"idX", "X SSD"⟩] [] 0).map Stat.disk_name) ∧
      ("ram0" ∈ (update_local (some ⟨true⟩) (fun _ => true)
        (some [("ram0", ⟨1, 1, 1, 1⟩), ("sda", ⟨2, 2, 2, 2⟩)])
        [⟨"idX", "X SSD"⟩] [] 0).map Stat.disk_name)) :=
  ⟨by decide, by decide, by decide, rfl,
   ram_filter (fun _ => true)
     [("ram0", ⟨1, 1, 1, 1⟩), ("sda", ⟨2, 2, 2, 2⟩)] [⟨"idX", "X SSD"⟩] [] 0
     "ram0" ⟨1, 1, 1, 1⟩ (by decide) (by decide) (by decide) rfl⟩

/-- C9 counterexample: with no NVMe drives and the counter source
enumerating `"sdb"` before `"sda"` (dict insertion order), the tick
returns the records in that same order — `["sdb", "sda"]` — which is not
sorted by device identifier in ascending order. -/
theorem tick_not_sorted_cex :
    ((update_local none (fun _ => true)
        (some [("sdb", ⟨1, 1, 1, 1⟩), ("sda", ⟨2, 2, 2, 2⟩)]) [] [] 0).map
      Stat.disk_name = ["sdb", "sda"]) ∧
    ¬ List.Sorted (· ≤ ·)
      ((update_local none (fun _ => true)
        (some [("sdb", ⟨1, 1, 1, 1⟩), ("sda", ⟨2, 2, 2, 2⟩)]) [] [] 0).map
      Stat.disk_name) := by
  have h : (update_local none (fun _ => true)
      (some [("sdb", ⟨1, 1, 1, 1⟩), ("sda", ⟨2, 2, 2, 2⟩)]) [] [] 0).map
      Stat.disk_name = ["sdb", "sda"] := by
    simp [update_local, keepsDisk, regular_stat]
  refine ⟨h, ?_⟩
  rw [h]
  intro hs
  have h1 : ¬ (("sdb" : String) ≤ "sda") := by
    rw [String.le_iff_toList_le]
    decide
  exact h1 (List.rel_of_sorted_cons hs _ (by simp))

/-- C9 amended: `update_local` applies no sort. The tick's record sequence
is exactly the NVMe catalog records (in catalog order) followed by the
surviving regular disks in the counter source's enumeration (dict
insertion) order; sorting by name happens only downstream in the
presentation layer (`sorted_stats()` inside `msg_curse`). -/
theorem tick_output_order (args : Option DiskioArgs)
    (is_display : String → Bool) (l : List (String × DiskIOCounters))
    (drives : List NVMeDrive) (wmi : List WmiDisk) (t : ℚ) :
    (update_local args is_display (some l) drives wmi t).map Stat.disk_name =
      drives.map NVMeDrive.Model ++
        (l.filter (keepsDisk args is_display)).map Prod.fst := by
  simp only [update_local, List.map_append, List.map_map]
  rfl
